import Mathlib

/-!
Shallow embedding of `src/software/teleop_nonhaptic_filtered.py`
(the teleoperation core of the proteus-gripper repository), together
with theorems settling the specification claims about it.

Conventions of the embedding:
* Python floats are modelled as rationals (`ℚ`); all constants in the
  file are exact decimals.
* A command sent to an actuator is a `Cmd` value; a run of a loop is a
  list of commands in issue order (its trace).
* `position=float(nan)` ("do not constrain this axis") and an omitted
  keyword argument are both modelled as `none` of `Option ℚ`.
* The asynchronous loops are modelled as functions over the list of
  environment events (leader positions read, torques polled, poll
  outcomes) that the loop consumes before it exits; an exhausted list
  models the loop flag being observed cleared (or cancellation at the
  iteration boundary), and explicit failure events model exceptions
  raised inside the loop body.
-/

namespace Proteus

/-- Commands issued to the moteus actuators over their transport.
`setStop` de-energizes; `query` reads telemetry without commanding;
`setPosition` is a motion command (position and velocity are `none`
when the axis is unconstrained or the argument is omitted);
`setAbsoluteReference` is the raw `d exact <value>` diagnostic-stream
command redefining the current physical position as `value`. -/
inductive Cmd where
  | setStop (id : Nat)
  | query (id : Nat)
  | setPosition (id : Nat) (position : Option ℚ) (velocity : Option ℚ) (maximumTorque : ℚ)
  | setAbsoluteReference (id : Nat) (value : ℚ)
  deriving DecidableEq, Repr

/-- The mutable state of `MotorControlApp` relevant to the control core
(lines 23-35 of the source).  `controllers` is the set of cached handle
ids in `self.controllers` (insertion order); `created` records every
`moteus.Controller(id=...)` constructor call made so far, in order.
GUI widgets are external and not modelled. -/
structure AppState where
  running : Bool
  monitoring : Bool
  homing_trigger : Bool
  homing_gripper : Bool
  controllers : List Nat
  created : List Nat
  prevfiltpos : Option ℚ
  alpha : ℚ
  deriving DecidableEq, Repr

/-- State after `__init__` (lines 19-41): flags down except monitoring,
an eager `moteus.Controller(id=2)` is created for `self.stream`
(line 24) but not placed in the `self.controllers` cache, the filter
history is unseeded and `alpha = 0.95`. -/
def init_state : AppState :=
  { running := false
    monitoring := true
    homing_trigger := false
    homing_gripper := false
    controllers := []
    created := [2]
    prevfiltpos := none
    alpha := 95/100 }

/-- The id the diagnostic stream talks to: `self.stream =
moteus.Stream(self.controller)` where `self.controller =
moteus.Controller(id=2)` (lines 24-25), so every `stream.command`
reaches actuator 2. -/
def stream_id : Nat := 2

/-- `initialize_controllers` (lines 153-161): lazily create and cache
the handle for id 1 and then id 2, sending `set_stop` to each
newly-created handle; cached ids are returned untouched. -/
def initialize_controllers (s : AppState) : AppState × List Cmd :=
  if 1 ∈ s.controllers then
    if 2 ∈ s.controllers then (s, [])
    else ({ s with controllers := s.controllers ++ [2], created := s.created ++ [2] },
          [Cmd.setStop 2])
  else
    if 2 ∈ s.controllers ++ [1] then
      ({ s with controllers := s.controllers ++ [1], created := s.created ++ [1] },
       [Cmd.setStop 1])
    else
      ({ s with controllers := s.controllers ++ [1] ++ [2],
                created := s.created ++ [1] ++ [2] },
       [Cmd.setStop 1, Cmd.setStop 2])

/-- `update_alpha` (lines 102-116): parse the entry text (`none` models
an unparseable entry, whose `ValueError` is caught); accept only
`0 <= v <= 1`, otherwise leave the stored coefficient unchanged.  No
branch touches `prevfiltpos`. -/
def update_alpha (s : AppState) (entry : Option ℚ) : AppState :=
  match entry with
  | none => s
  | some v => if 0 ≤ v ∧ v ≤ 1 then { s with alpha := v } else s

/-- `stop_control` (lines 140-143): clear the running flag. -/
def stop_control (s : AppState) : AppState :=
  { s with running := false }

/-- One iteration of the `motor_control` while-loop as seen by the
environment: `ok p` is a full iteration in which the leader reports
position `p`; `raiseAtLeader` is an exception from the leader command;
`raiseAtFollower p` is an exception from the follower command after the
leader reported `p`. -/
inductive IterEvent where
  | ok (p : ℚ)
  | raiseAtLeader
  | raiseAtFollower (p : ℚ)
  deriving DecidableEq, Repr

/-- The body of the `motor_control` while-loop (lines 169-184), run
over the iteration events.  Each iteration holds the leader with
`maximum_torque=0.015` (both axes NaN), computes
`filtered = alpha * prevfiltpos + (1 - alpha) * position`, commands the
follower to `7 - filtered` with `maximum_torque=0.1`, and then stores
the RAW `position` as the new `prevfiltpos` (line 183).  An exception
event aborts the loop after the commands it managed to issue; line 183
is not reached on a failing iteration.  Returns the trace and the final
`prevfiltpos`. -/
def motor_loop (a : ℚ) (prev : ℚ) : List IterEvent → List Cmd × ℚ
  | [] => ([], prev)
  | IterEvent.ok p :: es =>
      let r := motor_loop a p es
      (Cmd.setPosition 1 none none (15/1000) ::
       Cmd.setPosition 2 (some (7 - (a * prev + (1 - a) * p))) none (1/10) :: r.1, r.2)
  | IterEvent.raiseAtLeader :: _ =>
      ([Cmd.setPosition 1 none none (15/1000)], prev)
  | IterEvent.raiseAtFollower p :: _ =>
      ([Cmd.setPosition 1 none none (15/1000),
        Cmd.setPosition 2 (some (7 - (a * prev + (1 - a) * p))) none (1/10)], prev)

/-- `motor_control` (lines 163-188): initialize the handle cache, seed
`prevfiltpos` from a live leader query returning `seed` (lines 165-166,
before the `try`), run the loop, and in the `finally` block send
`set_stop` to the leader and then the follower (lines 186-188) on every
exit from the loop body. -/
def motor_control (s : AppState) (seed : ℚ) (events : List IterEvent) :
    AppState × List Cmd :=
  ({ (initialize_controllers s).1 with
      prevfiltpos := some (motor_loop s.alpha seed events).2 },
   (initialize_controllers s).2 ++ [Cmd.query 1] ++
     (motor_loop s.alpha seed events).1 ++ [Cmd.setStop 1, Cmd.setStop 2])

/-- The sequence of filtered values the source loop actually produces:
`filtered = a * prev + (1 - a) * raw` with the RAW input stored as the
next `prev` (line 183 of the source). -/
def loopFilteredSeq (a prev : ℚ) : List ℚ → List ℚ
  | [] => []
  | p :: ps => (a * prev + (1 - a) * p) :: loopFilteredSeq a p ps

/-- Modelled from the spec words (section 4.1): the exponential filter
stores the FILTERED output as the next `previous_filtered`.  Kept for
comparison with `loopFilteredSeq`, the sequence the source computes. -/
def specFilterSeq (a prev : ℚ) : List ℚ → List ℚ
  | [] => []
  | p :: ps =>
      (a * prev + (1 - a) * p) :: specFilterSeq a (a * prev + (1 - a) * p) ps

/-- Outcome of one `monitor_motors` iteration: `good` means both
queries returned, `bad` means a query raised (caught by the `except`,
which logs and backs off 1 s). -/
inductive PollOutcome where
  | good
  | bad
  deriving DecidableEq, Repr

/-- One iteration of `monitor_motors` (lines 192-214): re-run
`initialize_controllers` (a no-op once both handles are cached), then
query both actuators; on `bad` the first query raises and the iteration
ends in the `except` handler. -/
def monitor_iter (s : AppState) (o : PollOutcome) : AppState × List Cmd :=
  match o with
  | PollOutcome.good =>
      ((initialize_controllers s).1,
       (initialize_controllers s).2 ++ [Cmd.query 1, Cmd.query 2])
  | PollOutcome.bad =>
      ((initialize_controllers s).1,
       (initialize_controllers s).2 ++ [Cmd.query 1])

/-- `monitor_motors` (lines 190-214) over a list of poll outcomes: the
`while self.monitoring` loop runs one iteration per outcome; nothing in
the loop (including the `except` handler) modifies any flag. -/
def monitor_run (s : AppState) : List PollOutcome → AppState × List Cmd
  | [] => (s, [])
  | o :: os =>
      if s.monitoring then
        ((monitor_run (monitor_iter s o).1 os).1,
         (monitor_iter s o).2 ++ (monitor_run (monitor_iter s o).1 os).2)
      else (s, [])

/-- Number of iterations `monitor_motors` executes on a list of poll
outcomes (each executed iteration consumes one outcome). -/
def monitor_attempts (s : AppState) : List PollOutcome → Nat
  | [] => 0
  | o :: os =>
      if s.monitoring then 1 + monitor_attempts (monitor_iter s o).1 os else 0

/-- Result of a homing coroutine: `success` models the success
message-box path, `noCross` the loop ending with the homing flag
cleared externally before any torque crossing, and `reentryError` the
`UnboundLocalError` raised from the `finally` block when the early
re-entry `return` reaches `await c1.set_stop()` with `c1` never
bound. -/
inductive HomeResult where
  | success
  | noCross
  | reentryError
  deriving DecidableEq, Repr

/-- The probe loop of `home_trigger` (lines 233-249): each poll
commands velocity `-0.5` under torque cap `0.03` and reads back the
torque; on the first poll whose torque is `< -0.02` it sends
`d exact 0` over `self.stream` — which is bound to controller
`stream_id = 2` — and breaks.  Returns the trace and whether the
crossing was found. -/
def home_trigger_loop : List ℚ → List Cmd × Bool
  | [] => ([], false)
  | t :: ts =>
      if t < -(1/50) then
        ([Cmd.setPosition 1 none (some (-(1/2))) (3/100),
          Cmd.setAbsoluteReference stream_id 0], true)
      else
        (Cmd.setPosition 1 none (some (-(1/2))) (3/100) :: (home_trigger_loop ts).1,
         (home_trigger_loop ts).2)

/-- The probe loop of `home_gripper` (lines 278-294): velocity `0.5`,
torque cap `0.05`, crossing when torque `> 0.03`, then `d exact 7` over
`self.stream` (controller `stream_id = 2`). -/
def home_gripper_loop : List ℚ → List Cmd × Bool
  | [] => ([], false)
  | t :: ts =>
      if t > 3/100 then
        ([Cmd.setPosition 2 none (some (1/2)) (1/20),
          Cmd.setAbsoluteReference stream_id 7], true)
      else
        (Cmd.setPosition 2 none (some (1/2)) (1/20) :: (home_gripper_loop ts).1,
         (home_gripper_loop ts).2)

/-- `home_trigger` (lines 216-259) over the polled torques.  If
`homing_trigger` is already set, the `return` on line 220 still runs
the `finally` block (lines 256-259), which clears `homing_trigger`,
re-enables the button, and then raises `UnboundLocalError` at
`await c1.set_stop()` because `c1` was never bound on this path — no
command is issued.  Otherwise: set the flag, initialize the handles,
stop the leader, run the probe loop, and in the `finally` clear the
flag and stop the leader again. -/
def home_trigger (s : AppState) (torques : List ℚ) :
    AppState × List Cmd × HomeResult :=
  if s.homing_trigger then
    ({ s with homing_trigger := false }, [], HomeResult.reentryError)
  else
    ({ (initialize_controllers { s with homing_trigger := true }).1 with
        homing_trigger := false },
     (initialize_controllers { s with homing_trigger := true }).2 ++
       [Cmd.setStop 1] ++ (home_trigger_loop torques).1 ++ [Cmd.setStop 1],
     if (home_trigger_loop torques).2 then HomeResult.success else HomeResult.noCross)

/-- `home_gripper` (lines 261-304), symmetric to `home_trigger` with
the follower: the re-entry `return` on line 265 likewise runs the
`finally` (lines 301-304), clearing `homing_gripper` and raising
`UnboundLocalError` at `await c2.set_stop()`. -/
def home_gripper (s : AppState) (torques : List ℚ) :
    AppState × List Cmd × HomeResult :=
  if s.homing_gripper then
    ({ s with homing_gripper := false }, [], HomeResult.reentryError)
  else
    ({ (initialize_controllers { s with homing_gripper := true }).1 with
        homing_gripper := false },
     (initialize_controllers { s with homing_gripper := true }).2 ++
       [Cmd.setStop 2] ++ (home_gripper_loop torques).1 ++ [Cmd.setStop 2],
     if (home_gripper_loop torques).2 then HomeResult.success else HomeResult.noCross)

/-- Iterate `initialize_controllers` (state part) `n` times, as the
monitor loop does once per poll. -/
def iterate_init : Nat → AppState → AppState
  | 0, s => s
  | n + 1, s => iterate_init n (initialize_controllers s).1

/-- `initialize_controllers` touches only the handle cache: every
other field of the state is preserved. -/
theorem initialize_controllers_frame (s : AppState) :
    (initialize_controllers s).1.running = s.running ∧
    (initialize_controllers s).1.monitoring = s.monitoring ∧
    (initialize_controllers s).1.homing_trigger = s.homing_trigger ∧
    (initialize_controllers s).1.homing_gripper = s.homing_gripper ∧
    (initialize_controllers s).1.prevfiltpos = s.prevfiltpos ∧
    (initialize_controllers s).1.alpha = s.alpha := by
  unfold initialize_controllers
  split
  · split
    · exact ⟨rfl, rfl, rfl, rfl, rfl, rfl⟩
    · exact ⟨rfl, rfl, rfl, rfl, rfl, rfl⟩
  · split
    · exact ⟨rfl, rfl, rfl, rfl, rfl, rfl⟩
    · exact ⟨rfl, rfl, rfl, rfl, rfl, rfl⟩

/-- Once both handles are cached, `initialize_controllers` is a
complete no-op: same state, no commands. -/
theorem initialize_controllers_cached (s : AppState) (h1 : 1 ∈ s.controllers)
    (h2 : 2 ∈ s.controllers) : initialize_controllers s = (s, []) := by
  unfold initialize_controllers
  rw [if_pos h1, if_pos h2]

/-- Once both handles are cached, any number of further
`initialize_controllers` calls leave the state fixed. -/
theorem iterate_init_cached (n : Nat) (s : AppState) (h1 : 1 ∈ s.controllers)
    (h2 : 2 ∈ s.controllers) : iterate_init n s = s := by
  induction n with
  | zero => rfl
  | succ n ih =>
    unfold iterate_init
    rw [initialize_controllers_cached s h1 h2]
    exact ih

/-- The state part of a monitor iteration is exactly the state part of
`initialize_controllers`. -/
theorem monitor_iter_state (s : AppState) (o : PollOutcome) :
    (monitor_iter s o).1 = (initialize_controllers s).1 := by
  cases o <;> rfl

/-- With both handles cached, a monitor iteration leaves the state
unchanged and issues only queries. -/
theorem monitor_iter_cached (s : AppState) (o : PollOutcome)
    (h1 : 1 ∈ s.controllers) (h2 : 2 ∈ s.controllers) :
    (monitor_iter s o).1 = s ∧
    ((monitor_iter s o).2 = [Cmd.query 1, Cmd.query 2] ∨
     (monitor_iter s o).2 = [Cmd.query 1]) := by
  cases o <;> simp [monitor_iter, initialize_controllers_cached s h1 h2]

/-- The monitor loop never changes the monitoring flag. -/
theorem monitor_run_monitoring (s : AppState) (outs : List PollOutcome) :
    (monitor_run s outs).1.monitoring = s.monitoring := by
  induction outs generalizing s with
  | nil => rfl
  | cons o os ih =>
    unfold monitor_run
    split
    · rw [ih, monitor_iter_state]
      exact (initialize_controllers_frame s).2.1
    · rfl

/-- The monitor loop never touches the filter history. -/
theorem monitor_run_prevfiltpos (s : AppState) (outs : List PollOutcome) :
    (monitor_run s outs).1.prevfiltpos = s.prevfiltpos := by
  induction outs generalizing s with
  | nil => rfl
  | cons o os ih =>
    unfold monitor_run
    split
    · rw [ih, monitor_iter_state]
      exact (initialize_controllers_frame s).2.2.2.2.1
    · rfl

/-- With both handles cached, the monitor loop leaves the whole state
unchanged. -/
theorem monitor_run_cached_state (s : AppState) (outs : List PollOutcome)
    (h1 : 1 ∈ s.controllers) (h2 : 2 ∈ s.controllers) :
    (monitor_run s outs).1 = s := by
  induction outs generalizing s with
  | nil => rfl
  | cons o os ih =>
    unfold monitor_run
    split
    · rw [(monitor_iter_cached s o h1 h2).1, ih s h1 h2]
    · rfl

/-- With both handles cached, every command the monitor loop issues is
a query: it never sends `set_stop` (or any motion command) again. -/
theorem monitor_run_cached_cmds (s : AppState) (outs : List PollOutcome)
    (h1 : 1 ∈ s.controllers) (h2 : 2 ∈ s.controllers) :
    ∀ c ∈ (monitor_run s outs).2, c = Cmd.query 1 ∨ c = Cmd.query 2 := by
  induction outs generalizing s with
  | nil => intro c hc; simp [monitor_run] at hc
  | cons o os ih =>
    intro c hc
    unfold monitor_run at hc
    rcases monitor_iter_cached s o h1 h2 with ⟨hst, hcmds⟩
    by_cases hm : s.monitoring = true
    · simp only [hm, if_true] at hc
      rw [hst] at hc
      rcases List.mem_append.mp hc with h | h
      · rcases hcmds with he | he <;> rw [he] at h <;> simp at h <;> tauto
      · exact ih s h1 h2 c h
    · simp only [Bool.not_eq_true] at hm
      simp [hm] at hc

/-- While the monitoring flag holds, each poll outcome costs exactly
one executed iteration: the loop consumes the whole outcome list. -/
theorem monitor_attempts_length (s : AppState) (outs : List PollOutcome)
    (h : s.monitoring = true) : monitor_attempts s outs = outs.length := by
  induction outs generalizing s with
  | nil => rfl
  | cons o os ih =>
    unfold monitor_attempts
    rw [h]
    have hmon : (monitor_iter s o).1.monitoring = true := by
      rw [monitor_iter_state]
      rw [(initialize_controllers_frame s).2.1]
      exact h
    simp [ih _ hmon, Nat.add_comm]

/-- Claim C1: for every exit of the `motor_control` loop body — the
running flag being observed cleared or cancellation (modelled by the
event list ending) or an exception raised inside the loop (a raise
event) — the `finally` block sends `set_stop` to the leader and then
the follower, so the command trace always ends with those two stops. -/
theorem C1_mirror_stop_on_exit (s : AppState) (seed : ℚ) (events : List IterEvent) :
    [Cmd.setStop 1, Cmd.setStop 2] <:+ (motor_control s seed events).2 :=
  ⟨(initialize_controllers s).2 ++ [Cmd.query 1] ++ (motor_loop s.alpha seed events).1,
   by simp [motor_control]⟩

/-- Claim C2 (code bug evaluation): the loop stores the RAW leader
position as `prevfiltpos` (line 183), not the filtered output.  At
`alpha = 1/2`, seed `0`, raw inputs `[1, 0]` the code produces filtered
values `[1/2, 1/2]` and final stored value `0` (the raw input), and the
follower is commanded to `7 - 1/2` twice, whereas the claimed
recurrence (store the filtered output) yields `[1/2, 1/4]`. -/
theorem C2_filter_stores_raw_eval :
    loopFilteredSeq (1/2) 0 [1, 0] = [1/2, 1/2] ∧
    specFilterSeq (1/2) 0 [1, 0] = [1/2, 1/4] ∧
    loopFilteredSeq (1/2) 0 [1, 0] ≠ specFilterSeq (1/2) 0 [1, 0] ∧
    (motor_loop (1/2) 0 [IterEvent.ok 1, IterEvent.ok 0]).2 = 0 ∧
    (motor_loop (1/2) 0 [IterEvent.ok 1, IterEvent.ok 0]).1 =
      [Cmd.setPosition 1 none none (15/1000),
       Cmd.setPosition 2 (some (7 - 1/2)) none (1/10),
       Cmd.setPosition 1 none none (15/1000),
       Cmd.setPosition 2 (some (7 - 1/2)) none (1/10)] := by
  refine ⟨?_, ?_, ?_, ?_, ?_⟩ <;>
    norm_num [loopFilteredSeq, specFilterSeq, motor_loop]

/-- Claim C3: on every completed iteration of the mirror loop the
leader is held with `maximum_torque = 0.015` and the follower is
commanded to `span_offset - filtered` with `span_offset = 7` and
`maximum_torque = 0.1`, where `filtered` runs through the loop's filter
value sequence. -/
theorem C3_follower_command_law (a prev : ℚ) (ps : List ℚ) :
    (motor_loop a prev (ps.map IterEvent.ok)).1 =
      ((loopFilteredSeq a prev ps).map fun f =>
        [Cmd.setPosition 1 none none (15/1000),
         Cmd.setPosition 2 (some (7 - f)) none (1/10)]).flatten := by
  induction ps generalizing prev with
  | nil => rfl
  | cons p ps ih => simp [motor_loop, loopFilteredSeq, ih]

/-- Claim C4 (code bug evaluation): with leader torques
`[0, 0, -0.025]` the crossing happens on the third poll, exactly one
reference command is issued there, no probe follows it, and the
procedure succeeds — but the `d exact 0` command travels over
`self.stream`, which is bound to controller id 2 (the follower), so
the leader never receives `set_absolute_reference 0`.  The follower
case (`[0, 0.035]`, reference value 7) reaches actuator 2 as claimed. -/
theorem C4_homing_reference_eval :
    home_trigger_loop [0, 0, -(1/40)] =
      ([Cmd.setPosition 1 none (some (-(1/2))) (3/100),
        Cmd.setPosition 1 none (some (-(1/2))) (3/100),
        Cmd.setPosition 1 none (some (-(1/2))) (3/100),
        Cmd.setAbsoluteReference 2 0], true) ∧
    home_gripper_loop [0, 7/200] =
      ([Cmd.setPosition 2 none (some (1/2)) (1/20),
        Cmd.setPosition 2 none (some (1/2)) (1/20),
        Cmd.setAbsoluteReference 2 7], true) ∧
    (home_trigger init_state [0, 0, -(1/40)]).2.2 = HomeResult.success ∧
    (home_gripper init_state [0, 7/200]).2.2 = HomeResult.success ∧
    Cmd.setAbsoluteReference 1 0 ∉ (home_trigger init_state [0, 0, -(1/40)]).2.1 ∧
    Cmd.setAbsoluteReference 2 0 ∈ (home_trigger init_state [0, 0, -(1/40)]).2.1 := by
  refine ⟨?_, ?_, ?_, ?_, ?_, ?_⟩
  all_goals norm_num [home_trigger_loop, home_gripper_loop, home_trigger, home_gripper,
    init_state, initialize_controllers, stream_id]
  all_goals simp

/-- Claim C5 (code bug evaluation): invoking `home_trigger` (resp.
`home_gripper`) while its homing flag is already set does return before
issuing any command, but the `finally` block still runs: it clears the
homing flag of the in-flight procedure and raises `UnboundLocalError`
at `await c1.set_stop()` (resp. `c2`), because the handle variable was
never bound on that path — the state is altered, contradicting the
claim. -/
theorem C5_reentry_eval :
    home_trigger { init_state with homing_trigger := true } [] =
      ({ init_state with homing_trigger := false }, [], HomeResult.reentryError) ∧
    (home_trigger { init_state with homing_trigger := true } []).1.homing_trigger = false ∧
    home_gripper { init_state with homing_gripper := true } [] =
      ({ init_state with homing_gripper := false }, [], HomeResult.reentryError) ∧
    (home_gripper { init_state with homing_gripper := true } []).1.homing_gripper = false :=
  ⟨rfl, rfl, rfl, rfl⟩

/-- Claim C6 (counterexample): restarting the mirror loop does NOT
leave the seeded filter history intact  — `motor_control` re-seeds
`prevfiltpos` from a fresh live leader query (lines 165-166) on every
invocation: seeding the first run with 1 stores `some 1`, and a restart
whose live query returns 2 overwrites it with `some 2`. -/
theorem C6_counterexample_reseed :
    (motor_control init_state 1 []).1.prevfiltpos = some 1 ∧
    (motor_control (motor_control init_state 1 []).1 2 []).1.prevfiltpos = some 2 ∧
    (motor_control (motor_control init_state 1 []).1 2 []).1.prevfiltpos ≠
      (motor_control init_state 1 []).1.prevfiltpos := by
  refine ⟨rfl, rfl, ?_⟩
  norm_num [motor_control, motor_loop]

/-- Claim C6 (amended): `prevfiltpos` is modified only by the mirror
loop itself — each `motor_control` invocation re-seeds it from the
fresh live query and each completed iteration overwrites it with the
latest raw leader position — while `update_alpha`, `stop_control`, the
monitor loop and both homing procedures preserve it. -/
theorem C6_amended_prevfiltpos_frame (s : AppState) (seed : ℚ)
    (events : List IterEvent) (v : Option ℚ) (outs : List PollOutcome)
    (tq gq : List ℚ) :
    (motor_control s seed events).1.prevfiltpos =
      some (motor_loop s.alpha seed events).2 ∧
    (update_alpha s v).prevfiltpos = s.prevfiltpos ∧
    (stop_control s).prevfiltpos = s.prevfiltpos ∧
    (monitor_run s outs).1.prevfiltpos = s.prevfiltpos ∧
    (home_trigger s tq).1.prevfiltpos = s.prevfiltpos ∧
    (home_gripper s gq).1.prevfiltpos = s.prevfiltpos := by
  refine ⟨rfl, ?_, rfl, monitor_run_prevfiltpos s outs, ?_, ?_⟩
  · cases v with
    | none => rfl
    | some x =>
      simp only [update_alpha]
      split <;> rfl
  · unfold home_trigger
    split
    · rfl
    · exact (initialize_controllers_frame { s with homing_trigger := true }).2.2.2.2.1
  · unfold home_gripper
    split
    · rfl
    · exact (initialize_controllers_frame { s with homing_gripper := true }).2.2.2.2.1

/-- Claim C7 (counterexample): two controller handles with physical id
2 are created over the process lifetime — one eagerly in `__init__`
(line 24, for `self.stream`) and one in the cache by
`initialize_controllers` — so "at most one handle per physical id" is
false. -/
theorem C7_counterexample_two_handles :
    (initialize_controllers init_state).1.created.count 2 = 2 ∧
    ¬ (initialize_controllers init_state).1.created.count 2 ≤ 1 := by
  constructor <;> simp [initialize_controllers, init_state]

/-- Claim C7 (amended): the `self.controllers` cache itself creates
each handle lazily at most once — any number of further
`initialize_controllers` calls return the cached handles and create
nothing — but the session additionally holds the one eager id-2 handle
created at construction for the diagnostic stream, so the full
creation record is `[2, 1, 2]`. -/
theorem C7_amended_cache_unique (n : Nat) :
    (iterate_init n (initialize_controllers init_state).1).created = [2, 1, 2] ∧
    (iterate_init n (initialize_controllers init_state).1).controllers = [1, 2] := by
  have h : (initialize_controllers init_state).1 =
      { init_state with controllers := [1, 2], created := [2, 1, 2] } := by
    simp [initialize_controllers, init_state]
  rw [h, iterate_init_cached n _ (by simp) (by simp)]
  exact ⟨rfl, rfl⟩

/-- Claim C8: `update_alpha` with a value outside `[0,1]` (or an
unparseable entry) leaves the whole state — in particular the stored
coefficient and `prevfiltpos` — unchanged, and with a value inside
`[0,1]` it stores that coefficient without touching `prevfiltpos`. -/
theorem C8_update_alpha_spec (s : AppState) (v : ℚ) :
    (¬(0 ≤ v ∧ v ≤ 1) → update_alpha s (some v) = s) ∧
    ((0 ≤ v ∧ v ≤ 1) →
      (update_alpha s (some v)).alpha = v ∧
      (update_alpha s (some v)).prevfiltpos = s.prevfiltpos) ∧
    update_alpha s none = s := by
  refine ⟨fun h => ?_, fun h => ?_, rfl⟩
  · simp [update_alpha, h]
  · simp [update_alpha, h]

/-- Witness for C8 at the concrete inputs 2 (rejected) and 1/2
(accepted). -/
theorem C8_update_alpha_witness :
    update_alpha init_state (some 2) = init_state ∧
    (update_alpha init_state (some (1/2))).alpha = 1/2 ∧
    (update_alpha init_state (some (1/2))).prevfiltpos = init_state.prevfiltpos :=
  ⟨(C8_update_alpha_spec init_state 2).1 (by norm_num),
   ((C8_update_alpha_spec init_state (1/2)).2.1 (by norm_num)).1,
   ((C8_update_alpha_spec init_state (1/2)).2.1 (by norm_num)).2⟩

/-- Claim C9: query failures never terminate the monitor loop and
never clear the monitoring flag — after `N` consecutive failures the
loop still executes poll `N + 1`. -/
theorem C9_monitor_survives_failures (s : AppState) (N : Nat)
    (o : PollOutcome) (h : s.monitoring = true) :
    monitor_attempts s (List.replicate N PollOutcome.bad ++ [o]) = N + 1 ∧
    (monitor_run s (List.replicate N PollOutcome.bad ++ [o])).1.monitoring = true := by
  constructor
  · rw [monitor_attempts_length s _ h]
    simp
  · rw [monitor_run_monitoring]
    exact h

/-- Witness for C9: from the initial state, two failed polls are
followed by a third executed poll and the flag still holds. -/
theorem C9_monitor_survives_failures_witness :
    monitor_attempts init_state
      (List.replicate 2 PollOutcome.bad ++ [PollOutcome.good]) = 2 + 1 ∧
    (monitor_run init_state
      (List.replicate 2 PollOutcome.bad ++ [PollOutcome.good])).1.monitoring = true :=
  C9_monitor_survives_failures init_state 2 PollOutcome.good rfl

/-- Claim C10: on the first monitor iteration with both handles
uncached, the two handles are created and each actuator receives
exactly one `set_stop`, both before any telemetry query (they are the
first two commands of the whole monitor trace), and no later command
of the monitor run is a `set_stop`. -/
theorem C10_monitor_initial_stop (s : AppState) (o : PollOutcome)
    (outs : List PollOutcome) (hm : s.monitoring = true)
    (h1 : 1 ∉ s.controllers) (h2 : 2 ∉ s.controllers) :
    (monitor_run s (o :: outs)).2.take 2 = [Cmd.setStop 1, Cmd.setStop 2] ∧
    Cmd.setStop 1 ∉ (monitor_run s (o :: outs)).2.drop 2 ∧
    Cmd.setStop 2 ∉ (monitor_run s (o :: outs)).2.drop 2 ∧
    1 ∈ (monitor_run s (o :: outs)).1.controllers ∧
    2 ∈ (monitor_run s (o :: outs)).1.controllers := by
  have hinit : initialize_controllers s =
      ({ s with controllers := s.controllers ++ [1] ++ [2],
                created := s.created ++ [1] ++ [2] },
       [Cmd.setStop 1, Cmd.setStop 2]) := by
    unfold initialize_controllers
    rw [if_neg h1, if_neg (by simp [h2])]
  have h1c : (1 : Nat) ∈ s.controllers ++ [1] ++ [2] := by simp
  have h2c : (2 : Nat) ∈ s.controllers ++ [1] ++ [2] := by simp
  have hrun : monitor_run s (o :: outs) =
      ((monitor_run (monitor_iter s o).1 outs).1,
       (monitor_iter s o).2 ++ (monitor_run (monitor_iter s o).1 outs).2) := by
    simp [monitor_run, hm]
  have hstate : (monitor_iter s o).1 =
      { s with controllers := s.controllers ++ [1] ++ [2],
               created := s.created ++ [1] ++ [2] } := by
    rw [monitor_iter_state, hinit]
  have hnostop : ∀ c ∈ (monitor_run (monitor_iter s o).1 outs).2,
      c = Cmd.query 1 ∨ c = Cmd.query 2 := by
    rw [hstate]
    exact monitor_run_cached_cmds _ outs h1c h2c
  have hcmds : (monitor_iter s o).2 =
      [Cmd.setStop 1, Cmd.setStop 2] ++
        (if o = PollOutcome.good then [Cmd.query 1, Cmd.query 2] else [Cmd.query 1]) := by
    cases o <;> simp [monitor_iter, hinit]
  refine ⟨?_, ?_, ?_, ?_, ?_⟩
  · rw [hrun, hcmds]
    cases o <;> simp
  · rw [hrun, hcmds]
    cases o <;>
      · simp only [List.append_assoc, List.cons_append, List.nil_append, List.drop]
        intro hmem
        rcases List.mem_append.mp hmem with h | h
        · simp at h
        · rcases hnostop _ h with he | he <;> simp at he
  · rw [hrun, hcmds]
    cases o <;>
      · simp only [List.append_assoc, List.cons_append, List.nil_append, List.drop]
        intro hmem
        rcases List.mem_append.mp hmem with h | h
        · simp at h
        · rcases hnostop _ h with he | he <;> simp at he
  · rw [hrun]
    simp only []
    rw [show (monitor_run (monitor_iter s o).1 outs).1 = (monitor_iter s o).1 from by
      rw [hstate]
      exact monitor_run_cached_state _ outs h1c h2c]
    rw [hstate]
    simp
  · rw [hrun]
    simp only []
    rw [show (monitor_run (monitor_iter s o).1 outs).1 = (monitor_iter s o).1 from by
      rw [hstate]
      exact monitor_run_cached_state _ outs h1c h2c]
    rw [hstate]
    simp

/-- Witness for C10 from the freshly initialized state with one good
and one failed poll. -/
theorem C10_monitor_initial_stop_witness :
    (monitor_run init_state [PollOutcome.good, PollOutcome.bad]).2.take 2 =
      [Cmd.setStop 1, Cmd.setStop 2] ∧
    Cmd.setStop 1 ∉
      (monitor_run init_state [PollOutcome.good, PollOutcome.bad]).2.drop 2 ∧
    Cmd.setStop 2 ∉
      (monitor_run init_state [PollOutcome.good, PollOutcome.bad]).2.drop 2 ∧
    1 ∈ (monitor_run init_state [PollOutcome.good, PollOutcome.bad]).1.controllers ∧
    2 ∈ (monitor_run init_state [PollOutcome.good, PollOutcome.bad]).1.controllers :=
  C10_monitor_initial_stop init_state PollOutcome.good [PollOutcome.bad] rfl
    (by simp [init_state]) (by simp [init_state])

end Proteus
